import Mathlib

/-
Verification of the aws_s3 repository (S3Connector / S3Config) against its
natural-language specification.  The Python source in src/aws_s3 is shallowly
embedded below: the storage SDK is modelled as an opaque record of functions
(`Client`), raised Python exceptions become `Except` errors, and each
operation additionally returns the list of storage-client calls it issued so
that "no network call" statements are expressible.
-/

set_option maxRecDepth 4000

deriving instance DecidableEq for Except

/-- Host path convention: Python os.path behaves differently on POSIX and
Windows; the source calls os.path.basename and os.path.join, whose behaviour
for the relative inputs used here is modelled per host below. -/
inductive Host where
  | posix
  | windows
deriving DecidableEq

/-- Separator characters recognised by the host path module:
POSIX recognises only the forward slash, Windows recognises both. -/
def isSep : Host → Char → Bool
  | .posix, c => c == '/'
  | .windows, c => c == '/' || c == '\\'

/-- Separator inserted by os.path.join on each host. -/
def sepString : Host → String
  | .posix => "/"
  | .windows => "\\"

/-- Models os.path.basename: the suffix of the path after the last
host-recognised separator. -/
def basename (h : Host) (p : String) : String :=
  ⟨p.data.foldl (fun acc c => if isSep h c then [] else acc ++ [c]) []⟩

def startsWithSep (h : Host) (s : String) : Bool :=
  match s.data with
  | [] => false
  | c :: _ => isSep h c

def endsWithSep (h : Host) (s : String) : Bool :=
  match s.data.getLast? with
  | none => false
  | some c => isSep h c

/-- Models os.path.join for the shapes used by the source (a relative,
drive-free second component): if the second part begins with a separator it
wins, if the first part is empty or ends with a separator the parts are
concatenated, otherwise the host separator is inserted between them. -/
def pathJoin (h : Host) (a b : String) : String :=
  if startsWithSep h b then b
  else if a = "" || endsWithSep h a then a ++ b
  else a ++ sepString h ++ b

/-- Models the source line s3_path.replace("\\", "/"): every backslash in
the joined path becomes a forward slash (the pattern is a single character,
so per-character replacement coincides with substring replacement). -/
def replaceBackslashes (s : String) : String :=
  ⟨s.data.map (fun c => if c == '\\' then '/' else c)⟩

/-- The storage key computed by S3Connector.upload_files for a single file:
os.path.join(config.s3_directory, os.path.basename(local_path)) followed by
replace("\\", "/").  (connector.py lines 168-169) -/
def deriveKey (h : Host) (dir localPath : String) : String :=
  replaceBackslashes (pathJoin h dir (basename h localPath))

/-- Models Python str.strip() with no argument: whitespace is removed from
both ends (Char.isWhitespace stands in for Python str.isspace). -/
def pyStrip (s : String) : String :=
  ⟨((s.data.dropWhile Char.isWhitespace).reverse.dropWhile Char.isWhitespace).reverse⟩

/-- The dataclass S3Config (config.py).  Python ints are modelled as Int. -/
structure S3Config where
  s3_bucket_name : String
  s3_directory : String
  aws_region : Option String := none
  aws_access_key_id : Option String := none
  aws_secret_access_key : Option String := none
  aws_session_token : Option String := none
  aws_profile : Option String := none
  max_retries : Int := 3
  timeout : Int := 30
deriving DecidableEq

/-- The Python truthiness test `self.aws_region and not self.aws_region.strip()`
from S3Config.validate: true exactly when a region string is present, is not
the empty string (empty is falsy, short-circuiting the `and`), and strips to
the empty string. -/
def regionFalsyBad : Option String → Bool
  | none => false
  | some r => (r != "") && (pyStrip r == "")

/-- S3Config.validate (config.py lines 41-56): the first violated rule
raises ValueError with the given message, modelled as Except.error. -/
def S3Config.validate (c : S3Config) : Except String Unit :=
  if c.s3_bucket_name = "" then .error "Bucket cannot be empty"
  else if c.s3_directory = "" then .error "Directory cannot be empty"
  else if c.max_retries < 0 then .error "Max retries cannot be negative"
  else if c.timeout ≤ 0 then .error "Timeout must be a positive number"
  else if regionFalsyBad c.aws_region then .error "Region cannot be empty if provided"
  else .ok ()

/-- A string consisting solely of whitespace characters, in the sense of the
specification phrase "whitespace-only": it is nonempty and every character
is whitespace (the empty string consists of no characters at all and is
therefore not whitespace-only). -/
def whitespaceOnly (s : String) : Prop :=
  s ≠ "" ∧ ∀ ch ∈ s.data, ch.isWhitespace = true

/-- The validity predicate stated by the specification: bucket and directory
non-empty, retries nonnegative, timeout positive, and the region, when
provided, not whitespace-only. -/
def specConfigValid (c : S3Config) : Prop :=
  c.s3_bucket_name ≠ "" ∧ c.s3_directory ≠ "" ∧ 0 ≤ c.max_retries ∧ 0 < c.timeout ∧
    ∀ r, c.aws_region = some r → ¬ whitespaceOnly r

/-- A Python exception raised by a storage-client call: the source handles
botocore ClientError separately from other exceptions. -/
inductive PyExc where
  | clientError (msg : String)
  | exc (msg : String)
deriving DecidableEq

/-- An exception raised by the connector itself (exceptions.py):
UploadError for uploads, S3Error for listing and deletion failures.
Each carries its message string. -/
inductive AppErr where
  | uploadError (msg : String)
  | s3Error (msg : String)
deriving DecidableEq

/-- Python str(exc) on a connector exception yields its message. -/
def AppErr.str : AppErr → String
  | .uploadError m => m
  | .s3Error m => m

/-- One per-key error entry of an S3 DeleteObjects response. -/
structure DelErr where
  key : String
  code : String
  message : String
deriving DecidableEq

/-- The parts of the DeleteObjects response read by the source:
response.get("Deleted", []) (modelled by the deleted keys) and
response.get("Errors", []). -/
structure DeleteResponse where
  deleted : List String
  errors : List DelErr
deriving DecidableEq

/-- The opaque storage SDK (boto3 client together with os.path.isfile), as
seen by the connector: a record of pure outcome functions.  The host field
fixes the path convention used by os.path. -/
structure Client where
  host : Host
  isfile : String → Bool
  upload_file : String → String → String → Except PyExc Unit
  delete_objects : String → List String → Except PyExc DeleteResponse
  list_objects : String → String → Except PyExc (List String)

/-- A call issued to the storage client, recorded so that statements about
which network operations were attempted are expressible. -/
inductive S3Call where
  | uploadFile (localPath bucket key : String)
  | deleteObjects (bucket : String) (keys : List String)
  | listObjects (bucket : String) (prefixStr : String)
deriving DecidableEq

/-- The result dict of a single-path upload: keys success, message, error. -/
structure UploadSingleRes where
  success : Bool
  message : String
  error : Option String
deriving DecidableEq

/-- One entry of the parallel-upload error list:
{"file": file, "error": ...}. -/
structure FileErr where
  file : String
  error : Option String
deriving DecidableEq

/-- The result dict of a list upload (sequential or parallel). -/
structure UploadListRes where
  success : Bool
  message : String
  error : Option (List FileErr)
deriving DecidableEq

/-- The result dict of delete_files. -/
structure DeleteRes where
  success : Bool
  message : String
  error : Option (List DelErr)
deriving DecidableEq

/-- S3Connector.upload_files on a single (non-list) path
(connector.py lines 164-183): existence check, key derivation, one
upload_file call, error translation to UploadError.  The second component
is the list of storage-client calls issued. -/
def upload_files_single (c : Client) (cfg : S3Config) (localPath : String) :
    Except AppErr UploadSingleRes × List S3Call :=
  if c.isfile localPath = false then
    (.error (.uploadError ("File not found: " ++ localPath)), [])
  else
    let s3Path := deriveKey c.host cfg.s3_directory localPath
    match c.upload_file localPath cfg.s3_bucket_name s3Path with
    | .ok _ =>
        (.ok { success := true
               message := "Uploaded to s3://" ++ cfg.s3_bucket_name ++ "/" ++ s3Path
               error := none },
         [.uploadFile localPath cfg.s3_bucket_name s3Path])
    | .error (.clientError m) =>
        (.error (.uploadError ("Failed to upload " ++ localPath ++ " to S3: " ++ m)),
         [.uploadFile localPath cfg.s3_bucket_name s3Path])
    | .error (.exc m) =>
        (.error (.uploadError ("Unexpected error during upload: " ++ m)),
         [.uploadFile localPath cfg.s3_bucket_name s3Path])

/-- The sequential loop `for file in local_path: self.upload_files(file, False)`
(connector.py lines 160-161): the first raised error propagates and stops
the iteration. -/
def uploadSeqLoop (c : Client) (cfg : S3Config) :
    List String → Except AppErr Unit × List S3Call
  | [] => (.ok (), [])
  | f :: rest =>
    match upload_files_single c cfg f with
    | (.error e, t) => (.error e, t)
    | (.ok _, t) =>
      let r2 := uploadSeqLoop c cfg rest
      (r2.1, t ++ r2.2)

/-- S3Connector.upload_files on a list with parallel=False
(connector.py lines 159-162). -/
def upload_files_seq (c : Client) (cfg : S3Config) (files : List String) :
    Except AppErr UploadListRes × List S3Call :=
  match uploadSeqLoop c cfg files with
  | (.error e, t) => (.error e, t)
  | (.ok _, t) =>
    (.ok { success := true
           message := "Uploaded " ++ toString files.length ++ " files."
           error := none }, t)

/-- Accumulator of the parallel as_completed loop: the results, errors and
files lists plus the calls issued so far. -/
structure ParState where
  results : List UploadSingleRes
  errors : List FileErr
  files : List String
  trace : List S3Call
deriving DecidableEq

/-- One iteration of the as_completed loop (connector.py lines 144-156):
the future result is either a dict, appended to results and, when not
successful, reflected in the error list, or a raised exception, captured as
{"file": file, "error": str(exc)}. -/
def parStep (c : Client) (cfg : S3Config) (st : ParState) (f : String) : ParState :=
  match upload_files_single c cfg f with
  | (.ok r, t) =>
    { results := st.results ++ [r]
      errors := if r.success then st.errors else st.errors ++ [{ file := f, error := r.error }]
      files := st.files ++ [f]
      trace := st.trace ++ t }
  | (.error e, t) =>
    { results := st.results
      errors := st.errors ++ [{ file := f, error := some e.str }]
      files := st.files ++ [f]
      trace := st.trace ++ t }

/-- The return statements after the as_completed loop (connector.py lines
151-156): a non-empty error list yields the failure dict, otherwise the
success dict whose count n is len(local_path). -/
def parFinish (n : Nat) (st : ParState) : UploadListRes × List S3Call :=
  if st.errors.isEmpty then
    ({ success := true
       message := "Uploaded " ++ toString n ++ " files in parallel."
       error := none }, st.trace)
  else
    ({ success := false
       message := "Some files failed to upload."
       error := some st.errors }, st.trace)

/-- S3Connector.upload_files on a list with parallel=True (connector.py
lines 138-158).  The executor completes the submitted futures in a
nondeterministic order, so the embedding takes that completion order as an
explicit argument alongside the submitted list; the final count message uses
the submitted list, as len(local_path) does. -/
def upload_files_parallel (c : Client) (cfg : S3Config) (files order : List String) :
    UploadListRes × List S3Call :=
  parFinish files.length (order.foldl (parStep c cfg) ⟨[], [], [], []⟩)

/-- The outcome an individual file contributes to the parallel error list:
nothing when its upload returns a successful dict, the captured exception
string when it raises, the dict error when it returns success false. -/
def itemErr (c : Client) (cfg : S3Config) (f : String) : Option FileErr :=
  match upload_files_single c cfg f with
  | (.ok r, _) => if r.success then none else some { file := f, error := r.error }
  | (.error e, _) => some { file := f, error := some e.str }

/-- S3Connector.delete_files (connector.py lines 221-253): a string key is
wrapped into a one-element list, an empty list short-circuits without a
client call, otherwise one delete_objects call is issued and its response
errors decide the result; transport exceptions become S3Error. -/
def delete_files (c : Client) (cfg : S3Config) (input : String ⊕ List String) :
    Except AppErr DeleteRes × List S3Call :=
  let keys := match input with | .inl s => [s] | .inr l => l
  if keys.isEmpty then
    (.ok { success := false, message := "No keys provided for deletion.", error := none }, [])
  else
    match c.delete_objects cfg.s3_bucket_name keys with
    | .ok resp =>
      if resp.errors.isEmpty = false then
        (.ok { success := false
               message := "Some files could not be deleted."
               error := some resp.errors },
         [.deleteObjects cfg.s3_bucket_name keys])
      else
        (.ok { success := true
               message := "Deleted " ++ toString resp.deleted.length ++ " files."
               error := none },
         [.deleteObjects cfg.s3_bucket_name keys])
    | .error (.clientError m) =>
      (.error (.s3Error ("Failed to delete files in S3: " ++ m)),
       [.deleteObjects cfg.s3_bucket_name keys])
    | .error (.exc m) =>
      (.error (.s3Error ("Unexpected error during delete_files: " ++ m)),
       [.deleteObjects cfg.s3_bucket_name keys])

/-- Models Python s.lstrip("/") as used by list_files: all leading forward
slashes are removed. -/
def pyLstripSlash (s : String) : String :=
  ⟨s.data.dropWhile (· == '/')⟩

/-- S3Connector.list_files (connector.py lines 186-217): the prefix sent to
the paginator is the configured directory with lstrip("/") applied; the
client yields the flattened keys of all pages, optionally filtered by
substring; transport exceptions become S3Error. -/
def list_files (c : Client) (cfg : S3Config) (filt : Option String) :
    Except AppErr (List String) × List S3Call :=
  let pfx := pyLstripSlash cfg.s3_directory
  match c.list_objects cfg.s3_bucket_name pfx with
  | .ok allKeys =>
    (.ok (match filt with
          | none => allKeys
          | some sub => allKeys.filter (fun k => decide (sub.data <:+: k.data))),
     [.listObjects cfg.s3_bucket_name pfx])
  | .error (.clientError m) =>
    (.error (.s3Error ("Failed to list files in S3: " ++ m)),
     [.listObjects cfg.s3_bucket_name pfx])
  | .error (.exc m) =>
    (.error (.s3Error ("Unexpected error during list_files: " ++ m)),
     [.listObjects cfg.s3_bucket_name pfx])

/-- True when a batch error field is empty or absent (None). -/
def errorEmpty {α : Type} : Option (List α) → Bool
  | none => true
  | some l => l.isEmpty

/-- The process environment as an injectable key-value lookup. -/
def Env : Type := String → Option String

/-- Models os.environ.get(key, default). -/
def pyGetD (env : Env) (k d : String) : String := (env k).getD d

/-- Numeric value of a nonempty all-digit character list. -/
def digitsToNat (ds : List Char) : Option Nat :=
  if ds = [] then none
  else if ds.all Char.isDigit then
    some (ds.foldl (fun n c => 10 * n + (c.toNat - 48)) 0)
  else none

/-- Models Python int(s) on a string: surrounding whitespace is ignored, an
optional single sign precedes the digits, anything else raises ValueError
(modelled as none; digit-group underscores are not used by this repository
and are not modelled). -/
def pyInt (s : String) : Option Int :=
  match (pyStrip s).data with
  | '+' :: ds => (digitsToNat ds).map Int.ofNat
  | '-' :: ds => (digitsToNat ds).map (fun n => -(n : Int))
  | ds => (digitsToNat ds).map Int.ofNat

/-- The record built by S3Config.from_env (config.py lines 17-39): the
bucket and directory fields receive os.environ.get results directly and may
therefore be absent, unlike in a validated S3Config. -/
structure EnvConfig where
  s3_bucket_name : Option String
  s3_directory : Option String
  aws_region : Option String
  aws_access_key_id : Option String
  aws_secret_access_key : Option String
  aws_session_token : Option String
  aws_profile : Option String
  max_retries : Int
  timeout : Int
deriving DecidableEq

/-- S3Config.from_env: reads the environment, parsing AWS_MAX_RETRIES and
AWS_TIMEOUT with int() and supplying "3" and "30" when unset; a failed parse
raises ValueError. -/
def S3Config.from_env (env : Env) : Except String EnvConfig :=
  match pyInt (pyGetD env "AWS_MAX_RETRIES" "3"), pyInt (pyGetD env "AWS_TIMEOUT" "30") with
  | some mr, some t =>
    .ok { s3_bucket_name := env "S3_BUCKET_NAME"
          s3_directory := env "S3_DIRECTORY"
          aws_region := env "AWS_REGION"
          aws_access_key_id := env "AWS_ACCESS_KEY_ID"
          aws_secret_access_key := env "AWS_SECRET_ACCESS_KEY"
          aws_session_token := env "AWS_SESSION_TOKEN"
          aws_profile := env "AWS_PROFILE"
          max_retries := mr
          timeout := t }
  | _, _ => .error "invalid literal for int() with base 10"

/-- The keyword arguments accepted by S3Connector.__init__, each either
absent (the key is not in kwargs) or present with a value; for the optional
string fields a present value may itself be None. -/
structure Kwargs where
  s3_bucket_name : Option String := none
  s3_directory : Option String := none
  aws_region : Option (Option String) := none
  aws_access_key_id : Option (Option String) := none
  aws_secret_access_key : Option (Option String) := none
  aws_session_token : Option (Option String) := none
  aws_profile : Option (Option String) := none
  max_retries : Option Int := none
  timeout : Option Int := none

/-- Python `x or d` for an optional string x: the value when it is present
and non-empty (truthy), the default otherwise. -/
def pyOr (o : Option String) (d : String) : String :=
  match o with
  | some s => if s = "" then d else s
  | none => d

/-- A present keyword argument, else the environment-derived value
(kwargs.get(key, env_value)). -/
def kwOrEnv (kw : Option (Option String)) (e : Option String) : Option String :=
  match kw with
  | some v => v
  | none => e

/-- S3Connector.__init__ without an explicit config (connector.py lines
65-80): S3Config.from_env is layered under the keyword arguments field by
field, with `or ""` applied to the bucket and directory values.  The
constructor validates the result afterwards; this function models the
resolved record itself. -/
def resolveConfig (k : Kwargs) (env : Env) : Except String S3Config :=
  match S3Config.from_env env with
  | .error e => .error e
  | .ok ec =>
    .ok { s3_bucket_name := k.s3_bucket_name.getD (pyOr ec.s3_bucket_name "")
          s3_directory := k.s3_directory.getD (pyOr ec.s3_directory "")
          aws_region := kwOrEnv k.aws_region ec.aws_region
          aws_access_key_id := kwOrEnv k.aws_access_key_id ec.aws_access_key_id
          aws_secret_access_key := kwOrEnv k.aws_secret_access_key ec.aws_secret_access_key
          aws_session_token := kwOrEnv k.aws_session_token ec.aws_session_token
          aws_profile := kwOrEnv k.aws_profile ec.aws_profile
          max_retries := k.max_retries.getD ec.max_retries
          timeout := k.timeout.getD ec.timeout }

/-- A concrete configuration mirroring the repository test fixture. -/
def cfgA : S3Config :=
  { s3_bucket_name := "bkt"
    s3_directory := "dir/"
    aws_region := some "us-east-1"
    max_retries := 1
    timeout := 1 }

/-- A concrete storage client for witnesses: every path except missing.txt
exists locally, uploading bad.txt raises a ClientError, deletion succeeds
for every key, listing returns no keys. -/
def mockClient : Client :=
  { host := .posix
    isfile := fun p => p != "missing.txt"
    upload_file := fun p _ _ => if p = "bad.txt" then .error (.clientError "boom") else .ok ()
    delete_objects := fun _ ks => .ok { deleted := ks, errors := [] }
    list_objects := fun _ _ => .ok [] }

/-- A configuration whose directory begins with two slashes. -/
def cfgSlashes : S3Config :=
  { s3_bucket_name := "bkt"
    s3_directory := "//dir"
    max_retries := 3
    timeout := 30 }

/-- Environment fixture: only S3_DIRECTORY is set. -/
def envW : Env := fun s => if s = "S3_DIRECTORY" then some "d" else none

/-- Keyword-argument fixture: only the bucket name is overridden. -/
def kwargsW : Kwargs := { s3_bucket_name := some "b" }

/-- The configuration resolveConfig produces from kwargsW and envW. -/
def cfgW : S3Config := { s3_bucket_name := "b", s3_directory := "d" }

theorem dropWhile_eq_nil_iff_all {α : Type} (p : α → Bool) (l : List α) :
    l.dropWhile p = [] ↔ ∀ x ∈ l, p x = true := by
  induction l with
  | nil => simp
  | cons a t ih =>
    rw [List.dropWhile_cons]
    by_cases h : p a = true
    · simp [h, ih]
    · simp [h]

theorem mem_takeWhile_sat {α : Type} (p : α → Bool) (l : List α) :
    ∀ x ∈ l.takeWhile p, p x = true := by
  induction l with
  | nil => simp
  | cons a t ih =>
    intro x hx
    rw [List.takeWhile_cons] at hx
    by_cases h : p a = true
    · rw [if_pos h] at hx
      rcases List.mem_cons.mp hx with rfl | hx2
      · exact h
      · exact ih x hx2
    · rw [if_neg h] at hx
      exact absurd hx (List.not_mem_nil x)

theorem pyStrip_eq_empty_iff (s : String) :
    pyStrip s = "" ↔ ∀ ch ∈ s.data, ch.isWhitespace = true := by
  unfold pyStrip
  constructor
  · intro h ch hch
    have hdata : (((s.data.dropWhile Char.isWhitespace).reverse.dropWhile
        Char.isWhitespace).reverse) = [] := congrArg String.data h
    rw [List.reverse_eq_nil_iff] at hdata
    rw [dropWhile_eq_nil_iff_all] at hdata
    have hsplit := List.takeWhile_append_dropWhile (p := Char.isWhitespace) (l := s.data)
    rw [← hsplit] at hch
    rcases List.mem_append.mp hch with hmem | hmem
    · exact mem_takeWhile_sat _ _ ch hmem
    · exact hdata ch (List.mem_reverse.mpr hmem)
  · intro h
    have h1 : s.data.dropWhile Char.isWhitespace = [] :=
      (dropWhile_eq_nil_iff_all _ _).mpr h
    rw [h1]
    rfl

theorem regionFalsyBad_false_iff (o : Option String) :
    regionFalsyBad o = false ↔ ∀ r, o = some r → ¬ whitespaceOnly r := by
  cases o with
  | none => simp [regionFalsyBad]
  | some r =>
    simp only [regionFalsyBad, Bool.and_eq_false_iff, whitespaceOnly]
    constructor
    · intro h r2 hr2 hws
      cases hr2
      rcases h with h | h
      · rw [bne_eq_false_iff_eq] at h
        exact hws.1 h
      · rw [beq_eq_false_iff_ne] at h
        exact h ((pyStrip_eq_empty_iff r).mpr hws.2)
    · intro h
      by_cases hne : r = ""
      · left
        rw [bne_eq_false_iff_eq]
        exact hne
      · right
        rw [beq_eq_false_iff_ne]
        intro hstrip
        exact h r rfl ⟨hne, (pyStrip_eq_empty_iff r).mp hstrip⟩

theorem parStep_errors (c : Client) (cfg : S3Config) (st : ParState) (f : String) :
    (parStep c cfg st f).errors = st.errors ++ (itemErr c cfg f).toList := by
  rcases hh : upload_files_single c cfg f with ⟨r, t⟩
  cases r with
  | ok v =>
    by_cases hs : v.success = true
    · simp [parStep, itemErr, hh, hs]
    · simp [parStep, itemErr, hh, hs]
  | error e => simp [parStep, itemErr, hh]

theorem parStep_trace (c : Client) (cfg : S3Config) (st : ParState) (f : String) :
    (parStep c cfg st f).trace = st.trace ++ (upload_files_single c cfg f).2 := by
  rcases hh : upload_files_single c cfg f with ⟨r, t⟩
  cases r with
  | ok v => simp [parStep, hh]
  | error e => simp [parStep, hh]

theorem par_foldl (c : Client) (cfg : S3Config) (order : List String) :
    ∀ st0 : ParState,
      (order.foldl (parStep c cfg) st0).errors =
        st0.errors ++ order.filterMap (itemErr c cfg) ∧
      (order.foldl (parStep c cfg) st0).trace =
        st0.trace ++ (order.map (fun f => (upload_files_single c cfg f).2)).flatten := by
  induction order with
  | nil => simp
  | cons f rest ih =>
    intro st0
    rw [List.foldl_cons]
    constructor
    · rw [(ih _).1, parStep_errors, List.filterMap_cons]
      cases h : itemErr c cfg f <;> simp [h]
    · rw [(ih _).2, parStep_trace, List.map_cons, List.flatten_cons, List.append_assoc]

theorem upload_parallel_eq (c : Client) (cfg : S3Config) (files order : List String) :
    upload_files_parallel c cfg files order =
      (if (order.filterMap (itemErr c cfg)).isEmpty then
         { success := true
           message := "Uploaded " ++ toString files.length ++ " files in parallel."
           error := none }
       else
         { success := false
           message := "Some files failed to upload."
           error := some (order.filterMap (itemErr c cfg)) },
       (order.map (fun f => (upload_files_single c cfg f).2)).flatten) := by
  have he : (order.foldl (parStep c cfg) ⟨[], [], [], []⟩).errors =
      order.filterMap (itemErr c cfg) := by
    simpa using (par_foldl c cfg order ⟨[], [], [], []⟩).1
  have ht : (order.foldl (parStep c cfg) ⟨[], [], [], []⟩).trace =
      (order.map (fun f => (upload_files_single c cfg f).2)).flatten := by
    simpa using (par_foldl c cfg order ⟨[], [], [], []⟩).2
  unfold upload_files_parallel parFinish
  rw [he, ht]
  by_cases h : (order.filterMap (itemErr c cfg)).isEmpty = true
  · rw [if_pos h, if_pos h]
  · rw [if_neg h, if_neg h]

theorem seqLoop_ok (c : Client) (cfg : S3Config) (files : List String)
    (h : ∀ f ∈ files, ∃ r, (upload_files_single c cfg f).1 = .ok r) :
    uploadSeqLoop c cfg files =
      (.ok (), (files.map (fun f => (upload_files_single c cfg f).2)).flatten) := by
  induction files with
  | nil => simp [uploadSeqLoop]
  | cons f rest ih =>
    rcases h f (List.mem_cons_self f rest) with ⟨r, hr⟩
    rcases hh : upload_files_single c cfg f with ⟨res, t⟩
    rw [hh] at hr
    cases res with
    | error e => exact absurd hr (by simp)
    | ok v =>
      simp only [uploadSeqLoop, hh, List.map_cons, List.flatten_cons]
      rw [ih (fun g hg => h g (List.mem_cons_of_mem _ hg))]

theorem seqLoop_err (c : Client) (cfg : S3Config) (f : String) (post : List String)
    (e : AppErr) (hf : (upload_files_single c cfg f).1 = .error e) :
    ∀ pre : List String,
      (∀ g ∈ pre, ∃ r, (upload_files_single c cfg g).1 = .ok r) →
      uploadSeqLoop c cfg (pre ++ f :: post) =
        (.error e,
         (pre.map (fun g => (upload_files_single c cfg g).2)).flatten ++
           (upload_files_single c cfg f).2) := by
  intro pre
  induction pre with
  | nil =>
    intro _
    rcases hh : upload_files_single c cfg f with ⟨res, t⟩
    rw [hh] at hf
    cases res with
    | ok v => exact absurd hf (by simp)
    | error e2 =>
      have he2 : e2 = e := by
        have h3 := hf
        simp at h3
        exact h3
      subst he2
      simp [uploadSeqLoop, hh]
  | cons g rest ih =>
    intro hpre
    rcases hpre g (List.mem_cons_self g rest) with ⟨r, hr⟩
    rcases hh : upload_files_single c cfg g with ⟨res, t⟩
    rw [hh] at hr
    cases res with
    | error e2 => exact absurd hr (by simp)
    | ok v =>
      rw [List.cons_append]
      simp only [uploadSeqLoop, hh, List.map_cons, List.flatten_cons]
      rw [ih (fun g2 hg2 => hpre g2 (List.mem_cons_of_mem _ hg2))]
      simp [List.append_assoc]

/-- C4 (confirmed): for every configuration record, validate() succeeds
exactly when the bucket name is non-empty, the directory is non-empty,
max_retries is nonnegative, timeout is positive, and the region, when
provided, is not whitespace-only; on any violation it fails with a
configuration-validation (ValueError) error. -/
theorem C4_validate_iff (c : S3Config) :
    S3Config.validate c = Except.ok () ↔ specConfigValid c := by
  unfold S3Config.validate specConfigValid
  by_cases h1 : c.s3_bucket_name = ""
  · rw [if_pos h1]
    constructor
    · intro h
      exact absurd h (by simp)
    · intro hs
      exact absurd h1 hs.1
  · rw [if_neg h1]
    by_cases h2 : c.s3_directory = ""
    · rw [if_pos h2]
      constructor
      · intro h
        exact absurd h (by simp)
      · intro hs
        exact absurd h2 hs.2.1
    · rw [if_neg h2]
      by_cases h3 : c.max_retries < 0
      · rw [if_pos h3]
        constructor
        · intro h
          exact absurd h (by simp)
        · intro hs
          have := hs.2.2.1
          omega
      · rw [if_neg h3]
        by_cases h4 : c.timeout ≤ 0
        · rw [if_pos h4]
          constructor
          · intro h
            exact absurd h (by simp)
          · intro hs
            have := hs.2.2.2.1
            omega
        · rw [if_neg h4]
          by_cases h5 : regionFalsyBad c.aws_region = true
          · rw [if_pos h5]
            constructor
            · intro h
              exact absurd h (by simp)
            · intro hs
              have hfalse : regionFalsyBad c.aws_region = false :=
                (regionFalsyBad_false_iff c.aws_region).mpr hs.2.2.2.2
              rw [h5] at hfalse
              exact absurd hfalse (by simp)
          · rw [if_neg h5]
            have h5f : regionFalsyBad c.aws_region = false := by
              simpa using h5
            have hreg := (regionFalsyBad_false_iff c.aws_region).mp h5f
            exact ⟨fun _ => ⟨h1, h2, by omega, by omega, hreg⟩, fun _ => rfl⟩

/-- Witness for C4: the test-fixture configuration cfgA validates. -/
theorem C4_validate_iff_witness : S3Config.validate cfgA = Except.ok () := by
  refine (C4_validate_iff cfgA).mpr ⟨by decide, by decide, by decide, by decide, ?_⟩
  intro r hr hws
  have hsome : (some "us-east-1" : Option String) = some r := hr
  have hreq : r = "us-east-1" := (Option.some.inj hsome).symm
  subst hreq
  exact absurd (hws.2 'u' (by decide)) (by decide)

/-- C6 (confirmed): on either host path convention, the storage key derived
by the upload operation for local path a/b/file.txt under configured
directory dir/ is dir/file.txt. -/
theorem C6_derive_key_roundtrip (h : Host) :
    deriveKey h "dir/" "a/b/file.txt" = "dir/file.txt" := by
  cases h <;> decide

theorem upload_single_not_found (c : Client) (cfg : S3Config) (p : String)
    (h : c.isfile p = false) :
    upload_files_single c cfg p =
      (Except.error (AppErr.uploadError ("File not found: " ++ p)), []) := by
  unfold upload_files_single
  rw [if_pos h]

/-- C9 (confirmed): uploading a single path that does not exist as a local
file raises UploadError with a file-not-found message and issues no
storage-client call. -/
theorem C9_upload_missing_file (c : Client) (cfg : S3Config) (p : String)
    (h : c.isfile p = false) :
    upload_files_single c cfg p =
      (Except.error (AppErr.uploadError ("File not found: " ++ p)), []) :=
  upload_single_not_found c cfg p h

/-- Witness for C9: mockClient reports missing.txt as absent and the upload
raises without any storage call. -/
theorem C9_upload_missing_file_witness :
    upload_files_single mockClient cfgA "missing.txt" =
      (Except.error (AppErr.uploadError ("File not found: " ++ "missing.txt")), []) :=
  C9_upload_missing_file mockClient cfgA "missing.txt" (by decide)

/-- C10 (confirmed): a single-path upload either raises UploadError or
returns a dict with success True and error None; a caller can never observe
a returned single-path dict with success False. -/
theorem C10_single_no_failure_record (c : Client) (cfg : S3Config) (p : String) :
    (∃ m, (upload_files_single c cfg p).1 = .error (.uploadError m)) ∨
    (∃ r, (upload_files_single c cfg p).1 = .ok r ∧ r.success = true ∧ r.error = none) := by
  by_cases h : c.isfile p = false
  · rw [upload_single_not_found c cfg p h]
    exact Or.inl ⟨_, rfl⟩
  · have htrue : c.isfile p = true := by
      simpa using h
    simp only [upload_files_single, htrue]
    cases hu : c.upload_file p cfg.s3_bucket_name (deriveKey c.host cfg.s3_directory p) with
    | ok v => exact Or.inr ⟨_, rfl, rfl, rfl⟩
    | error e =>
      cases e with
      | clientError m => exact Or.inl ⟨_, rfl⟩
      | exc m => exact Or.inl ⟨_, rfl⟩

theorem takeWhile_eq_replicate_slash (l : List Char) :
    l.takeWhile (· == '/') = List.replicate (l.takeWhile (· == '/')).length '/' := by
  induction l with
  | nil => rfl
  | cons a t ih =>
    rw [List.takeWhile_cons]
    by_cases h : (a == '/') = true
    · rw [if_pos h]
      have ha : a = '/' := by
        simpa using h
      rw [List.length_cons, List.replicate_succ, ha]
      exact congrArg (List.cons '/') ih
    · rw [if_neg h]
      rfl

theorem head_dropWhile_not (p : Char → Bool) (l : List Char) :
    ∀ a, (l.dropWhile p).head? = some a → p a = false := by
  induction l with
  | nil =>
    intro a h
    simp at h
  | cons b t ih =>
    intro a h
    rw [List.dropWhile_cons] at h
    by_cases hb : p b = true
    · rw [if_pos hb] at h
      exact ih a h
    · rw [if_neg hb] at h
      simp at h
      subst h
      simpa using hb

theorem upload_single_ok_shape (c : Client) (cfg : S3Config) (p : String)
    (h1 : c.isfile p = true)
    (h2 : c.upload_file p cfg.s3_bucket_name (deriveKey c.host cfg.s3_directory p) = .ok ()) :
    (upload_files_single c cfg p).1 =
      .ok { success := true
            message := "Uploaded to s3://" ++ cfg.s3_bucket_name ++ "/" ++
              deriveKey c.host cfg.s3_directory p
            error := none } := by
  simp [upload_files_single, h1, h2]

/-- C7 counterexample: for a directory beginning with two slashes the
listing operation sends the prefix with both slashes removed, not just one,
so the claim that a double-slash directory keeps its remaining leading
slash fails on the code. -/
theorem C7_single_slash_cex :
    (list_files mockClient cfgSlashes none).2 = [S3Call.listObjects "bkt" "dir"] ∧
    (list_files mockClient cfgSlashes none).2 ≠ [S3Call.listObjects "bkt" "/dir"] := by
  decide

/-- C7 (amended): the listing operation uses as the storage prefix the
configured directory with all leading slashes removed: the directory splits
into a run of leading slashes followed by the prefix, and the prefix does
not begin with a slash. -/
theorem C7_lstrip_all_slashes (c : Client) (cfg : S3Config) (filt : Option String) :
    ∃ p : String,
      (list_files c cfg filt).2 = [S3Call.listObjects cfg.s3_bucket_name p] ∧
      (∃ k, cfg.s3_directory.data = List.replicate k '/' ++ p.data) ∧
      p.data.head? ≠ some '/' := by
  refine ⟨pyLstripSlash cfg.s3_directory, ?_, ?_, ?_⟩
  · cases hr : c.list_objects cfg.s3_bucket_name (pyLstripSlash cfg.s3_directory) with
    | ok keysList => simp [list_files, hr]
    | error e =>
      cases e with
      | clientError m => simp [list_files, hr]
      | exc m => simp [list_files, hr]
  · refine ⟨(cfg.s3_directory.data.takeWhile (· == '/')).length, ?_⟩
    have hsplit := List.takeWhile_append_dropWhile
      (p := (· == '/')) (l := cfg.s3_directory.data)
    conv_lhs => rw [← hsplit]
    rw [← takeWhile_eq_replicate_slash]
    rfl
  · intro hcontra
    have h := head_dropWhile_not (· == '/') cfg.s3_directory.data '/' hcontra
    simp at h

/-- Witness for C7 amended, at the double-slash directory fixture. -/
theorem C7_lstrip_all_slashes_witness :
    ∃ p : String,
      (list_files mockClient cfgSlashes none).2 =
        [S3Call.listObjects cfgSlashes.s3_bucket_name p] ∧
      (∃ k, cfgSlashes.s3_directory.data = List.replicate k '/' ++ p.data) ∧
      p.data.head? ≠ some '/' :=
  C7_lstrip_all_slashes mockClient cfgSlashes none

/-- C8 (confirmed): delete_files on an empty batch returns the no-keys
failure record without any storage call; a non-empty batch issues exactly
one batch-delete call, service-reported per-key errors yield a failure
record carrying that error list without raising, and an error-free response
yields a success record whose message carries the number of deleted keys. -/
theorem C8_delete_files_spec (c : Client) (cfg : S3Config) :
    (delete_files c cfg (Sum.inr ([] : List String)) =
      (.ok { success := false, message := "No keys provided for deletion.", error := none },
       [])) ∧
    (∀ keys : List String, keys ≠ [] →
      (delete_files c cfg (Sum.inr keys)).2 =
        [S3Call.deleteObjects cfg.s3_bucket_name keys]) ∧
    (∀ keys : List String, ∀ resp : DeleteResponse, keys ≠ [] →
      c.delete_objects cfg.s3_bucket_name keys = .ok resp →
      (resp.errors ≠ [] →
        (delete_files c cfg (Sum.inr keys)).1 =
          .ok { success := false
                message := "Some files could not be deleted."
                error := some resp.errors }) ∧
      (resp.errors = [] →
        (delete_files c cfg (Sum.inr keys)).1 =
          .ok { success := true
                message := "Deleted " ++ toString resp.deleted.length ++ " files."
                error := none })) := by
  refine ⟨rfl, ?_, ?_⟩
  · intro keys hk
    cases keys with
    | nil => exact absurd rfl hk
    | cons k ks =>
      cases hr : c.delete_objects cfg.s3_bucket_name (k :: ks) with
      | ok resp =>
        by_cases he : resp.errors.isEmpty = false
        · simp [delete_files, hr, he]
        · simp [delete_files, hr, he]
      | error e =>
        cases e with
        | clientError m => simp [delete_files, hr]
        | exc m => simp [delete_files, hr]
  · intro keys resp hk hresp
    cases keys with
    | nil => exact absurd rfl hk
    | cons k ks =>
      constructor
      · intro herr
        have he : resp.errors.isEmpty = false := by
          cases hes : resp.errors with
          | nil => exact absurd hes herr
          | cons a b => rfl
        simp [delete_files, hresp, he]
      · intro herr
        have he : resp.errors.isEmpty = true := by
          rw [herr]
          rfl
        simp [delete_files, hresp, he]

/-- Witness for C8: deleting the single key k1 with an error-free service
response returns success with the count 1 in the message. -/
theorem C8_delete_files_spec_witness :
    (delete_files mockClient cfgA (Sum.inr ["k1"])).1 =
      .ok { success := true
            message := "Deleted " ++ toString (1 : Nat) ++ " files."
            error := none } := by
  have h := ((C8_delete_files_spec mockClient cfgA).2.2 ["k1"]
    { deleted := ["k1"], errors := [] } (by decide) (by decide)).2 rfl
  exact h

/-- C1 counterexample: delete_files on an empty key batch returns a record
whose error field is absent (None) while success is false, so the claimed
equivalence between success and an empty-or-absent error field fails for
that batch result. -/
theorem C1_delete_empty_cex :
    ¬ (∀ res : DeleteRes,
        (delete_files mockClient cfgA (Sum.inr ([] : List String))).1 = .ok res →
        (res.success = true ↔ errorEmpty res.error = true)) := by
  intro hclaim
  have h := hclaim
    { success := false, message := "No keys provided for deletion.", error := none }
    (by decide)
  have h2 := h.mpr (by decide)
  exact absurd h2 (by decide)

/-- C1 (amended): every batch result of upload_files on a list, in either
mode, has success true exactly when its error field is empty or absent, and
so does every delete_files result for a non-empty key batch; the single
exception forced by the code is delete_files on an empty batch, which
returns success false together with error None. -/
theorem C1_success_error_iff (c : Client) (cfg : S3Config) :
    (∀ files order : List String,
      ((upload_files_parallel c cfg files order).1.success = true ↔
        errorEmpty (upload_files_parallel c cfg files order).1.error = true)) ∧
    (∀ files : List String, ∀ r : UploadListRes, ∀ t : List S3Call,
      upload_files_seq c cfg files = (.ok r, t) → r.success = true ∧ r.error = none) ∧
    (∀ keys : List String, ∀ r : DeleteRes, ∀ t : List S3Call, keys ≠ [] →
      delete_files c cfg (Sum.inr keys) = (.ok r, t) →
      (r.success = true ↔ errorEmpty r.error = true)) ∧
    (delete_files c cfg (Sum.inr ([] : List String)) =
      (.ok { success := false, message := "No keys provided for deletion.", error := none },
       [])) := by
  refine ⟨?_, ?_, ?_, rfl⟩
  · intro files order
    rw [upload_parallel_eq]
    by_cases h : (order.filterMap (itemErr c cfg)).isEmpty = true
    · simp [h, errorEmpty]
    · simp [h, errorEmpty]
  · intro files r t h
    rcases hl : uploadSeqLoop c cfg files with ⟨res, tr⟩
    cases res with
    | error e =>
      simp [upload_files_seq, hl] at h
    | ok v =>
      simp [upload_files_seq, hl] at h
      rw [← h.1]
      exact ⟨rfl, rfl⟩
  · intro keys r t hk h
    cases keys with
    | nil => exact absurd rfl hk
    | cons k ks =>
      cases hr : c.delete_objects cfg.s3_bucket_name (k :: ks) with
      | ok resp =>
        by_cases he : resp.errors.isEmpty = false
        · simp [delete_files, hr, he] at h
          rw [← h.1]
          simp [errorEmpty, he]
        · have he2 : resp.errors.isEmpty = true := by
            simpa using he
          simp [delete_files, hr, he2] at h
          rw [← h.1]
          simp [errorEmpty]
      | error e =>
        cases e with
        | clientError m => simp [delete_files, hr] at h
        | exc m => simp [delete_files, hr] at h

/-- Witness for C1 amended: a non-empty delete batch with an error-free
response satisfies the success equivalence. -/
theorem C1_success_error_iff_witness :
    (({ success := true
        message := "Deleted " ++ toString (1 : Nat) ++ " files."
        error := none } : DeleteRes).success = true ↔
      errorEmpty ({ success := true
                    message := "Deleted " ++ toString (1 : Nat) ++ " files."
                    error := none } : DeleteRes).error = true) :=
  (C1_success_error_iff mockClient cfgA).2.2.1 ["k1"]
    { success := true
      message := "Deleted " ++ toString (1 : Nat) ++ " files."
      error := none }
    [S3Call.deleteObjects "bkt" ["k1"]] (by decide) (by decide)

/-- C2 (confirmed): with parallel=True every item of the list has its upload
attempted (every storage call of its single upload appears in the batch
trace) regardless of sibling failures, every raising item is captured in
the error list keyed by its original file, and the returned record is the
failure dict carrying the error list when that list is non-empty, else the
success dict counting the submitted files. -/
theorem C2_parallel_spec (c : Client) (cfg : S3Config) (files order : List String)
    (hperm : order.Perm files) :
    (∀ f ∈ files, ∀ call ∈ (upload_files_single c cfg f).2,
      call ∈ (upload_files_parallel c cfg files order).2) ∧
    (∀ f ∈ order, ∀ e : AppErr, (upload_files_single c cfg f).1 = .error e →
      { file := f, error := some e.str } ∈ order.filterMap (itemErr c cfg)) ∧
    (order.filterMap (itemErr c cfg) ≠ [] →
      (upload_files_parallel c cfg files order).1 =
        { success := false
          message := "Some files failed to upload."
          error := some (order.filterMap (itemErr c cfg)) }) ∧
    (order.filterMap (itemErr c cfg) = [] →
      (upload_files_parallel c cfg files order).1 =
        { success := true
          message := "Uploaded " ++ toString files.length ++ " files in parallel."
          error := none }) := by
  have htr : (upload_files_parallel c cfg files order).2 =
      (order.map (fun f => (upload_files_single c cfg f).2)).flatten := by
    rw [upload_parallel_eq]
  refine ⟨?_, ?_, ?_, ?_⟩
  · intro f hf call hcall
    rw [htr]
    refine List.mem_flatten.mpr ⟨(upload_files_single c cfg f).2, ?_, hcall⟩
    exact List.mem_map_of_mem _ (hperm.mem_iff.mpr hf)
  · intro f hf e he
    refine List.mem_filterMap.mpr ⟨f, hf, ?_⟩
    rcases hu : upload_files_single c cfg f with ⟨res, t⟩
    rw [hu] at he
    cases res with
    | ok v => exact absurd he (by simp)
    | error e2 =>
      have : e2 = e := by
        simpa using he
      subst this
      simp [itemErr, hu]
  · intro hne
    rw [upload_parallel_eq]
    have h : (order.filterMap (itemErr c cfg)).isEmpty = false := by
      cases hfm : order.filterMap (itemErr c cfg) with
      | nil => exact absurd hfm hne
      | cons a b => rfl
    simp [h]
  · intro hnil
    rw [upload_parallel_eq]
    simp [hnil]

/-- Witness for C2: of two submitted files the bad one raises inside the
pool, the good one is still uploaded and observable in the trace, and the
batch returns the failure dict keyed by the bad file. -/
theorem C2_parallel_spec_witness :
    (upload_files_parallel mockClient cfgA ["good.txt", "bad.txt"]
      ["good.txt", "bad.txt"]).1 =
      { success := false
        message := "Some files failed to upload."
        error := some [{ file := "bad.txt"
                         error := some "Failed to upload bad.txt to S3: boom" }] } ∧
    S3Call.uploadFile "good.txt" "bkt" "dir/good.txt" ∈
      (upload_files_parallel mockClient cfgA ["good.txt", "bad.txt"]
        ["good.txt", "bad.txt"]).2 := by
  have h := C2_parallel_spec mockClient cfgA ["good.txt", "bad.txt"]
    ["good.txt", "bad.txt"] (List.Perm.refl _)
  constructor
  · have h2 := h.2.2.1 (by decide)
    rw [h2]
    decide
  · exact h.1 "good.txt" (by decide) _ (by decide)

/-- C3 (confirmed): with parallel=False the single-path upload runs once
per item in input order; when every item succeeds the batch returns the
success dict counting the files, and when an item raises after a prefix of
successes its error propagates unchanged and no later item is attempted
(the trace stops at the failing item). -/
theorem C3_seq_spec (c : Client) (cfg : S3Config) (files : List String) :
    ((∀ f ∈ files, ∃ r, (upload_files_single c cfg f).1 = .ok r) →
      upload_files_seq c cfg files =
        (.ok { success := true
               message := "Uploaded " ++ toString files.length ++ " files."
               error := none },
         (files.map (fun f => (upload_files_single c cfg f).2)).flatten)) ∧
    (∀ pre : List String, ∀ f : String, ∀ post : List String, ∀ e : AppErr,
      files = pre ++ f :: post →
      (∀ g ∈ pre, ∃ r, (upload_files_single c cfg g).1 = .ok r) →
      (upload_files_single c cfg f).1 = .error e →
      upload_files_seq c cfg files =
        (.error e,
         (pre.map (fun g => (upload_files_single c cfg g).2)).flatten ++
           (upload_files_single c cfg f).2)) := by
  constructor
  · intro h
    rw [upload_files_seq, seqLoop_ok c cfg files h]
  · intro pre f post e hfiles hpre hf
    subst hfiles
    rw [upload_files_seq, seqLoop_err c cfg f post e hf pre hpre]

/-- Witness for C3: two existing files upload in order with a count-bearing
success message, and a batch whose second file is missing propagates the
UploadError after attempting only the first file. -/
theorem C3_seq_spec_witness :
    upload_files_seq mockClient cfgA ["a.txt", "b.txt"] =
      (.ok { success := true
             message := "Uploaded " ++ toString (2 : Nat) ++ " files."
             error := none },
       [S3Call.uploadFile "a.txt" "bkt" "dir/a.txt",
        S3Call.uploadFile "b.txt" "bkt" "dir/b.txt"]) ∧
    upload_files_seq mockClient cfgA ["a.txt", "missing.txt", "c.txt"] =
      (.error (AppErr.uploadError ("File not found: " ++ "missing.txt")),
       [S3Call.uploadFile "a.txt" "bkt" "dir/a.txt"]) := by
  constructor
  · have hall : ∀ f ∈ ["a.txt", "b.txt"],
        ∃ r, (upload_files_single mockClient cfgA f).1 = Except.ok r := by
      intro f hf
      rcases List.mem_cons.mp hf with rfl | hf2
      · exact ⟨_, upload_single_ok_shape mockClient cfgA "a.txt" (by decide) (by decide)⟩
      rcases List.mem_cons.mp hf2 with rfl | hf3
      · exact ⟨_, upload_single_ok_shape mockClient cfgA "b.txt" (by decide) (by decide)⟩
      · exact absurd hf3 (List.not_mem_nil f)
    have h := (C3_seq_spec mockClient cfgA ["a.txt", "b.txt"]).1 hall
    rw [h]
    decide
  · have hpre : ∀ g ∈ ["a.txt"],
        ∃ r, (upload_files_single mockClient cfgA g).1 = Except.ok r := by
      intro g hg
      rcases List.mem_cons.mp hg with rfl | hg2
      · exact ⟨_, upload_single_ok_shape mockClient cfgA "a.txt" (by decide) (by decide)⟩
      · exact absurd hg2 (List.not_mem_nil g)
    have h := (C3_seq_spec mockClient cfgA ["a.txt", "missing.txt", "c.txt"]).2
      ["a.txt"] "missing.txt" ["c.txt"]
      (AppErr.uploadError ("File not found: " ++ "missing.txt"))
      rfl hpre (by decide)
    rw [h]
    decide

/-- C5 (confirmed): with no explicit configuration object, every resolved
field is the keyword override when present, else the environment value,
else the built-in default; the integer fields come from int() applied to
the environment strings, which default to 3 for max_retries and 30 for
timeout when their variables are unset. -/
theorem C5_resolve_layering (k : Kwargs) (env : Env) (cfg : S3Config)
    (h : resolveConfig k env = .ok cfg) :
    cfg.s3_bucket_name = k.s3_bucket_name.getD (pyOr (env "S3_BUCKET_NAME") "") ∧
    cfg.s3_directory = k.s3_directory.getD (pyOr (env "S3_DIRECTORY") "") ∧
    cfg.aws_region = kwOrEnv k.aws_region (env "AWS_REGION") ∧
    cfg.aws_access_key_id = kwOrEnv k.aws_access_key_id (env "AWS_ACCESS_KEY_ID") ∧
    cfg.aws_secret_access_key =
      kwOrEnv k.aws_secret_access_key (env "AWS_SECRET_ACCESS_KEY") ∧
    cfg.aws_session_token = kwOrEnv k.aws_session_token (env "AWS_SESSION_TOKEN") ∧
    cfg.aws_profile = kwOrEnv k.aws_profile (env "AWS_PROFILE") ∧
    ∃ em et : Int,
      pyInt (pyGetD env "AWS_MAX_RETRIES" "3") = some em ∧
      pyInt (pyGetD env "AWS_TIMEOUT" "30") = some et ∧
      cfg.max_retries = k.max_retries.getD em ∧
      cfg.timeout = k.timeout.getD et ∧
      (env "AWS_MAX_RETRIES" = none → em = 3) ∧
      (env "AWS_TIMEOUT" = none → et = 30) := by
  unfold resolveConfig at h
  cases hfe : S3Config.from_env env with
  | error e =>
    rw [hfe] at h
    exact absurd h (by simp)
  | ok ec =>
    rw [hfe] at h
    have hc := Except.ok.inj h
    subst hc
    unfold S3Config.from_env at hfe
    cases hm : pyInt (pyGetD env "AWS_MAX_RETRIES" "3") with
    | none =>
      cases ht : pyInt (pyGetD env "AWS_TIMEOUT" "30") with
      | none => simp [hm, ht] at hfe
      | some et => simp [hm, ht] at hfe
    | some em =>
      cases ht : pyInt (pyGetD env "AWS_TIMEOUT" "30") with
      | none => simp [hm, ht] at hfe
      | some et =>
        rw [hm, ht] at hfe
        have hec := Except.ok.inj hfe
        subst hec
        refine ⟨rfl, rfl, rfl, rfl, rfl, rfl, rfl, em, et, rfl, rfl, rfl, rfl, ?_, ?_⟩
        · intro hnone
          have h3 : pyGetD env "AWS_MAX_RETRIES" "3" = "3" := by
            unfold pyGetD
            rw [hnone]
            rfl
          rw [h3] at hm
          have h33 : pyInt "3" = some 3 := by decide
          rw [h33] at hm
          exact (Option.some.inj hm).symm
        · intro hnone
          have h30 : pyGetD env "AWS_TIMEOUT" "30" = "30" := by
            unfold pyGetD
            rw [hnone]
            rfl
          rw [h30] at ht
          have h303 : pyInt "30" = some 30 := by decide
          rw [h303] at ht
          exact (Option.some.inj ht).symm

/-- Witness for C5: with only S3_DIRECTORY in the environment and only the
bucket name as a keyword, the resolved bucket is the keyword value and the
resolved directory is the environment value. -/
theorem C5_resolve_layering_witness :
    cfgW.s3_bucket_name = kwargsW.s3_bucket_name.getD (pyOr (envW "S3_BUCKET_NAME") "") ∧
    cfgW.s3_directory = kwargsW.s3_directory.getD (pyOr (envW "S3_DIRECTORY") "") := by
  have h := C5_resolve_layering kwargsW envW cfgW (by decide)
  exact ⟨h.1, h.2.1⟩
